import Mathlib

/-!
Shallow embedding of `src/game.rs` from tekknolagi/monopoly.

The Rust module defines a game-state reducer: `GameState` holds a board
(`squares`), a player list (`players`) and an append-only event log
(`events`).  `GameState::apply` validates an `Action` and either mutates
the state or returns a `StateError`.  Machine integers (`i8`, `i16`,
`usize`) are embedded as `Int`/`Nat`; the only place where the machine
representation matters is `ensure_player`, where
`self.players.len().try_into().unwrap()` converts a `usize` to an `i8`
and panics when the length exceeds 127.  That panic is modelled
explicitly by a third constructor of the result type.
-/

namespace Monopoly

/-- `pub struct PlayerId(pub i8)` — the `i8` payload embedded as `Int`. -/
structure PlayerId where
  val : Int
deriving DecidableEq, Repr

/-- `pub struct Player { pub id: PlayerId }` -/
structure Player where
  id : PlayerId
deriving DecidableEq, Repr

/-- `pub struct PropertyId(i8)` -/
structure PropertyId where
  val : Int
deriving DecidableEq, Repr

/-- `pub struct Money(i16)` -/
structure Money where
  val : Int
deriving DecidableEq, Repr

/-- `pub struct Property { ... }` — immutable board configuration. -/
structure Property where
  name : String
  base : Money
  houses : Money × Money × Money × Money
  hotel : Money
  mortgage : Money
  house_cost : Money
  hotel_cost : Money × Int
deriving DecidableEq, Repr

/-- `pub struct RollResult(pub i8, pub i8)` -/
structure RollResult where
  one : Int
  two : Int
deriving DecidableEq, Repr

/-- `pub struct ChanceCard;` -/
structure ChanceCard where
deriving DecidableEq, Repr

/-- `pub struct CommunityChestCard;` -/
structure CommunityChestCard where
deriving DecidableEq, Repr

/-- `pub enum Card` -/
inductive Card where
  | Chance (c : ChanceCard)
  | CommunityChest (c : CommunityChestCard)
deriving DecidableEq, Repr

/-- `pub struct Bid(PlayerId, Money)` -/
structure Bid where
  player : PlayerId
  amount : Money
deriving DecidableEq, Repr

/-- `pub enum TransactionType` -/
inductive TransactionType where
  | BuyProperty (p : PlayerId) (pr : PropertyId)
  | BuyGetOutOfJailFreeCard (p : PlayerId)
  | SellProperty (p : PlayerId) (pr : PropertyId)
  | PayRent (p : PlayerId)
deriving DecidableEq, Repr

/-- `pub struct Transaction { ty, cost }` -/
structure Transaction where
  ty : TransactionType
  cost : Money
deriving DecidableEq, Repr

/-- `pub enum Action` — the full action vocabulary of the reducer. -/
inductive Action where
  | RollDice (p : PlayerId) (r : RollResult)
  | MoveForward (p : PlayerId) (n : Int)
  | BuyProperty (p : PlayerId) (pr : PropertyId)
  | SellProperty (p : PlayerId) (pr : PropertyId)
  | BuyHouse (p : PlayerId) (pr : PropertyId)
  | SellHouse (p : PlayerId) (pr : PropertyId)
  | BuyHotel (p : PlayerId) (pr : PropertyId)
  | SellHotel (p : PlayerId) (pr : PropertyId)
  | PayTaxes (p : PlayerId) (m : Money)
  | ReceiveSalary (p : PlayerId)
  | DrawCard (p : PlayerId) (c : Card)
  | GoToJail (p : PlayerId)
  | PayJailFine (p : PlayerId)
  | AuctionProperty (pr : PropertyId) (bids : List Bid)
  | MortgageProperty (p : PlayerId) (pr : PropertyId)
  | UnmortgageProperty (p : PlayerId) (pr : PropertyId)
  | TransactWithPlayer (p : PlayerId) (t : Transaction)
  | DeclareBankruptcy (p : PlayerId)
deriving DecidableEq, Repr

/-- `enum Square { Go, Property(Property) }` -/
inductive Square where
  | Go
  | Property (p : Property)
deriving DecidableEq, Repr

/-- `static SQUARES: &[Square]` — the fixed board table in the source. -/
def SQUARES : List Square :=
  [Square.Go,
   Square.Property
     { name := "Mediterranean Ave"
       base := ⟨2⟩
       houses := (⟨10⟩, ⟨30⟩, ⟨90⟩, ⟨160⟩)
       hotel := ⟨250⟩
       mortgage := ⟨30⟩
       house_cost := ⟨50⟩
       hotel_cost := (⟨50⟩, 4) }]

/-- `pub struct GameState { squares, players, events }` -/
structure GameState where
  squares : List Square
  players : List Player
  events : List Action
deriving DecidableEq, Repr

/-- `pub struct StateError { message: String }` -/
structure StateError where
  message : String
deriving DecidableEq, Repr

/-- `StateError::new` -/
def StateError.new (m : String) : StateError := ⟨m⟩

/-- `GameState::init` — the board constant, no players, empty log. -/
def GameState.init : GameState :=
  { squares := SQUARES, players := [], events := [] }

/-- Outcome of one `apply` call.  `ok` and `err` carry the post-state of
the `&mut self` receiver (`err` always carries the unchanged state, by
construction mirroring the source, where the `?` operator returns before
any mutation).  `panic` models `try_into().unwrap()` aborting. -/
inductive ApplyResult where
  | ok (s : GameState)
  | err (e : StateError) (s : GameState)
  | panic
deriving DecidableEq, Repr

/-- `GameState::ensure_player`.  The source compares the `i8` argument
with `self.players.len().try_into().unwrap()`: the `usize → i8`
conversion fails (and `unwrap` panics, modelled as `none`) when the
length exceeds 127; otherwise the signed comparison `player_id >= len`
decides, so negative ids are never rejected. -/
def GameState.ensure_player (s : GameState) (player_id : Int) :
    Option (Except StateError Unit) :=
  if s.players.length ≤ 127 then
    if (s.players.length : Int) ≤ player_id then
      some (Except.error (StateError.new
        ("player " ++ toString player_id ++ " is not a valid player")))
    else
      some (Except.ok ())
  else
    none

/-- `GameState::apply`.  Only `RollDice` has logic: it validates the
player id, prints the roll (pure I/O, no state effect), and appends the
action to the event log.  Every other variant returns
`StateError::new("foo")`. -/
def GameState.apply (s : GameState) (action : Action) : ApplyResult :=
  match action with
  | Action.RollDice pid _ =>
      match s.ensure_player pid.val with
      | none => ApplyResult.panic
      | some (Except.error e) => ApplyResult.err e s
      | some (Except.ok ()) =>
          ApplyResult.ok { s with events := s.events ++ [action] }
  | _ => ApplyResult.err (StateError.new "foo") s

/-- `true` exactly on the `RollDice` variant, the only one with real logic. -/
def Action.is_roll_dice : Action → Bool
  | Action.RollDice _ _ => true
  | _ => false

/-- The state registered by the successful-roll test
(`roll_dice_with_valid_player_logs_roll`): `init` plus one player of id 0. -/
def one_player_state : GameState :=
  { GameState.init with players := [{ id := ⟨0⟩ }] }

/-- A state whose player list exceeds the `i8` range, making
`players.len().try_into().unwrap()` panic inside `ensure_player`. -/
def crowded_state : GameState :=
  { GameState.init with players := List.replicate 128 { id := ⟨0⟩ } }

/-- A run of the reducer: `ReachesWith s tr s2` holds when the sequence of
`apply` calls recorded in `tr` — each action paired with whether its call
returned success — leads from `s` to `s2`. -/
inductive ReachesWith : GameState → List (Action × Bool) → GameState → Prop where
  | nil (s : GameState) : ReachesWith s [] s
  | ok_step {s s' s'' : GameState} {a : Action} {tr : List (Action × Bool)} :
      s.apply a = ApplyResult.ok s' → ReachesWith s' tr s'' →
      ReachesWith s ((a, true) :: tr) s''
  | err_step {s s' s'' : GameState} {a : Action} {e : StateError}
      {tr : List (Action × Bool)} :
      s.apply a = ApplyResult.err e s' → ReachesWith s' tr s'' →
      ReachesWith s ((a, false) :: tr) s''

/-- A failing `apply` hands back the receiver unchanged: the `?` operator in
the `RollDice` arm returns before the `events.push`, and every stub arm
returns an error without touching `self`. -/
theorem apply_err_state_eq (s : GameState) (a : Action) (e : StateError)
    (s' : GameState) (h : s.apply a = ApplyResult.err e s') : s' = s := by
  cases a <;> simp only [GameState.apply] at h <;>
    first
      | (injection h with h1 h2; exact h2.symm)
      | (split at h
         · exact ApplyResult.noConfusion h
         · injection h with h1 h2; exact h2.symm
         · exact ApplyResult.noConfusion h)

/-- A successful `apply` changes the state in exactly one way: the action is
appended to the event log. -/
theorem apply_ok_state_eq (s : GameState) (a : Action) (s' : GameState)
    (h : s.apply a = ApplyResult.ok s') :
    s' = { s with events := s.events ++ [a] } := by
  cases a <;> simp only [GameState.apply] at h
  case RollDice p r =>
    split at h
    · exact ApplyResult.noConfusion h
    · exact ApplyResult.noConfusion h
    · injection h with h1; exact h1.symm
  all_goals exact ApplyResult.noConfusion h

/-- Along any run, the event log grows by exactly the actions whose `apply`
call succeeded, in order. -/
theorem reachesWith_events (s s2 : GameState) (tr : List (Action × Bool))
    (h : ReachesWith s tr s2) :
    s2.events = s.events ++ (tr.filter (fun p => p.2)).map (fun p => p.1) := by
  induction h with
  | nil s => simp
  | ok_step hap _ ih =>
      rw [ih, apply_ok_state_eq _ _ _ hap]
      simp
  | err_step hap _ ih =>
      rw [ih, apply_err_state_eq _ _ _ _ hap]
      simp

/-- C1: the claim states that every action referencing a `PlayerId` absent
from the player list fails with `UnknownPlayer` and leaves the state
unchanged.  The code violates it: `ensure_player` only checks
`player_id >= len`, so on the empty player list of `GameState::init()` the
action `RollDice(PlayerId(-1), RollResult(1, 2))` — whose player id indexes
no player — succeeds and is appended to the event log.  This theorem
evaluates the reducer at that failing input. -/
theorem C1_negative_unknown_player_accepted :
    GameState.init.apply (Action.RollDice ⟨-1⟩ ⟨1, 2⟩) =
      ApplyResult.ok
        { GameState.init with events := [Action.RollDice ⟨-1⟩ ⟨1, 2⟩] } := rfl

/-- C2: whenever `apply` returns an error, the `players`, `squares` and
`events` fields all equal their values before the call — failure has no
partial effects. -/
theorem C2_failure_leaves_state_unchanged (s : GameState) (a : Action)
    (e : StateError) (s' : GameState) (h : s.apply a = ApplyResult.err e s') :
    s'.players = s.players ∧ s'.squares = s.squares ∧ s'.events = s.events := by
  rw [apply_err_state_eq s a e s' h]
  exact ⟨rfl, rfl, rfl⟩

/-- Witness for C2 at a concrete input: the `GoToJail` stub fails on the
initial state and leaves it unchanged. -/
theorem C2_witness :
    GameState.init.apply (Action.GoToJail ⟨0⟩) =
      ApplyResult.err (StateError.new "foo") GameState.init ∧
    (GameState.init.players = GameState.init.players ∧
     GameState.init.squares = GameState.init.squares ∧
     GameState.init.events = GameState.init.events) :=
  ⟨rfl, C2_failure_leaves_state_unchanged GameState.init (Action.GoToJail ⟨0⟩)
    (StateError.new "foo") GameState.init rfl⟩

/-- C3: whenever `apply` returns success, the event log grows by exactly one
entry and its last element is the applied action. -/
theorem C3_success_appends_exactly_the_action (s : GameState) (a : Action)
    (s' : GameState) (h : s.apply a = ApplyResult.ok s') :
    s'.events.length = s.events.length + 1 ∧ s'.events.getLast? = some a := by
  rw [apply_ok_state_eq s a s' h]
  constructor
  · simp
  · simp

/-- Witness for C3 at a concrete input: a valid roll on the one-player state
appends the roll. -/
theorem C3_witness :
    one_player_state.apply (Action.RollDice ⟨0⟩ ⟨1, 2⟩) =
      ApplyResult.ok
        { one_player_state with events := [Action.RollDice ⟨0⟩ ⟨1, 2⟩] } ∧
    ({ one_player_state with
        events := [Action.RollDice ⟨0⟩ ⟨1, 2⟩] } : GameState).events.length =
      one_player_state.events.length + 1 ∧
    ({ one_player_state with
        events := [Action.RollDice ⟨0⟩ ⟨1, 2⟩] } : GameState).events.getLast? =
      some (Action.RollDice ⟨0⟩ ⟨1, 2⟩) :=
  ⟨rfl, C3_success_appends_exactly_the_action one_player_state
    (Action.RollDice ⟨0⟩ ⟨1, 2⟩)
    { one_player_state with events := [Action.RollDice ⟨0⟩ ⟨1, 2⟩] } rfl⟩

/-- C4: every state reachable from `GameState::init()` by a sequence of
`apply` calls has as its event log exactly the actions whose call returned
success, in application order; no failed action appears. -/
theorem C4_log_is_exactly_the_successful_actions (s : GameState)
    (tr : List (Action × Bool)) (h : ReachesWith GameState.init tr s) :
    s.events = (tr.filter (fun p => p.2)).map (fun p => p.1) := by
  have he := reachesWith_events GameState.init s tr h
  simpa [GameState.init] using he

/-- Witness for C4 on a concrete two-step run: a failed stub action followed
by nothing leaves the log empty. -/
theorem C4_witness :
    ReachesWith GameState.init [(Action.GoToJail ⟨0⟩, false)] GameState.init ∧
    GameState.init.events =
      (([(Action.GoToJail ⟨0⟩, false)].filter (fun p => p.2)).map
        (fun p => p.1)) :=
  ⟨ReachesWith.err_step rfl (ReachesWith.nil GameState.init),
   C4_log_is_exactly_the_successful_actions GameState.init
     [(Action.GoToJail ⟨0⟩, false)]
     (ReachesWith.err_step rfl (ReachesWith.nil GameState.init))⟩

/-- C5: every action variant other than `RollDice` is a stub: `apply`
returns the generic error `StateError::new("foo")` on any state. -/
theorem C5_non_roll_dice_variant_is_generic_error (s : GameState) (a : Action)
    (h : a.is_roll_dice = false) :
    s.apply a = ApplyResult.err (StateError.new "foo") s := by
  cases a <;> first
    | rfl
    | simp [Action.is_roll_dice] at h

/-- Witness for C5 at a concrete input: `GoToJail` is not `RollDice` and is
rejected with the generic error. -/
theorem C5_witness :
    (Action.GoToJail ⟨3⟩).is_roll_dice = false ∧
    one_player_state.apply (Action.GoToJail ⟨3⟩) =
      ApplyResult.err (StateError.new "foo") one_player_state :=
  ⟨rfl, C5_non_roll_dice_variant_is_generic_error one_player_state
    (Action.GoToJail ⟨3⟩) rfl⟩

/-- C6: starting from `GameState::init()` with one player of id 0
registered, applying `RollDice(PlayerId(0), RollResult(1, 2))` succeeds and
afterwards the event log is exactly that one action — the scenario of the
test `roll_dice_with_valid_player_logs_roll`. -/
theorem C6_one_player_roll_scenario :
    one_player_state.apply (Action.RollDice ⟨0⟩ ⟨1, 2⟩) =
      ApplyResult.ok
        { squares := SQUARES
          players := [{ id := ⟨0⟩ }]
          events := [Action.RollDice ⟨0⟩ ⟨1, 2⟩] } := rfl

/-- C7 as amended: on any state whose player list fits in an `i8` (at most
127 players), `apply` never panics — it returns either success or an error.
The original claim over every `GameState` fails: see the counterexample,
where `players.len().try_into().unwrap()` panics. -/
theorem C7_no_panic_when_players_fit_i8 (s : GameState) (a : Action)
    (h : s.players.length ≤ 127) :
    (∃ s', s.apply a = ApplyResult.ok s') ∨
    (∃ e s', s.apply a = ApplyResult.err e s') := by
  cases a
  case RollDice p r =>
    by_cases hc : (s.players.length : Int) ≤ p.val
    · refine Or.inr ⟨StateError.new
        ("player " ++ toString p.val ++ " is not a valid player"), s, ?_⟩
      simp [GameState.apply, GameState.ensure_player, h, hc]
    · refine Or.inl ⟨{ s with
        events := s.events ++ [Action.RollDice p r] }, ?_⟩
      simp [GameState.apply, GameState.ensure_player, h, hc]
  all_goals exact Or.inr ⟨StateError.new "foo", s, rfl⟩

/-- Witness for C7 at a concrete input: the initial state has at most 127
players, so `apply` returns a value. -/
theorem C7_witness :
    GameState.init.players.length ≤ 127 ∧
    ((∃ s', GameState.init.apply (Action.RollDice ⟨0⟩ ⟨1, 2⟩) =
        ApplyResult.ok s') ∨
     (∃ e s', GameState.init.apply (Action.RollDice ⟨0⟩ ⟨1, 2⟩) =
        ApplyResult.err e s')) :=
  ⟨by simp [GameState.init],
   C7_no_panic_when_players_fit_i8 GameState.init
     (Action.RollDice ⟨0⟩ ⟨1, 2⟩) (by simp [GameState.init])⟩

/-- C7 counterexample: on a state with 128 players, `apply` of a `RollDice`
action panics (`players.len().try_into().unwrap()` fails to convert 128 to
`i8`), returning neither success nor an error to the caller — refuting the
claim as stated over every `GameState`. -/
theorem C7_counterexample :
    crowded_state.apply (Action.RollDice ⟨0⟩ ⟨1, 2⟩) = ApplyResult.panic := by
  simp [crowded_state, GameState.init, GameState.apply, GameState.ensure_player]

/-- C8: the reducer is deterministic — equal states and equal actions give
equal results (the result value carries the post-state, so equal results
mean equal post-states as well). -/
theorem C8_apply_deterministic (s1 s2 : GameState) (a1 a2 : Action)
    (hs : s1 = s2) (ha : a1 = a2) : s1.apply a1 = s2.apply a2 := by
  rw [hs, ha]

/-- Witness for C8 at a concrete input. -/
theorem C8_witness :
    GameState.init = GameState.init ∧
    Action.GoToJail ⟨0⟩ = Action.GoToJail ⟨0⟩ ∧
    GameState.init.apply (Action.GoToJail ⟨0⟩) =
      GameState.init.apply (Action.GoToJail ⟨0⟩) :=
  ⟨rfl, rfl, C8_apply_deterministic GameState.init GameState.init
    (Action.GoToJail ⟨0⟩) (Action.GoToJail ⟨0⟩) rfl rfl⟩

/-- C9: frame property — whether `apply` succeeds or fails, the post-state's
`squares` field equals the pre-state's: no action mutates the board. -/
theorem C9_squares_never_mutated (s : GameState) (a : Action) :
    (∀ s', s.apply a = ApplyResult.ok s' → s'.squares = s.squares) ∧
    (∀ e s', s.apply a = ApplyResult.err e s' → s'.squares = s.squares) := by
  constructor
  · intro s' h
    rw [apply_ok_state_eq s a s' h]
  · intro e s' h
    rw [apply_err_state_eq s a e s' h]

/-- Witness for C9 at a concrete input: a successful roll leaves the board
of the one-player state unchanged. -/
theorem C9_witness :
    one_player_state.apply (Action.RollDice ⟨0⟩ ⟨1, 2⟩) =
      ApplyResult.ok
        { one_player_state with events := [Action.RollDice ⟨0⟩ ⟨1, 2⟩] } ∧
    ({ one_player_state with
        events := [Action.RollDice ⟨0⟩ ⟨1, 2⟩] } : GameState).squares =
      one_player_state.squares :=
  ⟨rfl, (C9_squares_never_mutated one_player_state
    (Action.RollDice ⟨0⟩ ⟨1, 2⟩)).1
    { one_player_state with events := [Action.RollDice ⟨0⟩ ⟨1, 2⟩] } rfl⟩

/-- C10 as amended: on any state whose player list fits in an `i8` (at most
127 players), `RollDice` with any negative player id passes validation —
`ensure_player` rejects exactly ids at least the player-list length under
signed comparison — so the call succeeds and appends the action to the
event log, even when no such player exists.  The original claim over every
`GameState` fails: with 128 players the conversion in `ensure_player`
panics before the comparison (see the counterexample). -/
theorem C10_negative_id_always_validates (s : GameState) (n : Int)
    (r : RollResult) (hlen : s.players.length ≤ 127) (hn : n < 0) :
    s.apply (Action.RollDice ⟨n⟩ r) =
      ApplyResult.ok
        { s with events := s.events ++ [Action.RollDice ⟨n⟩ r] } := by
  have hc : ¬ ((s.players.length : Int) ≤ n) := by omega
  simp [GameState.apply, GameState.ensure_player, hlen, hc]

/-- Witness for C10 at a concrete input: `RollDice(PlayerId(-5))` succeeds
on the empty-player initial state. -/
theorem C10_witness :
    GameState.init.players.length ≤ 127 ∧ (-5 : Int) < 0 ∧
    GameState.init.apply (Action.RollDice ⟨-5⟩ ⟨3, 4⟩) =
      ApplyResult.ok
        { GameState.init with
            events := GameState.init.events ++ [Action.RollDice ⟨-5⟩ ⟨3, 4⟩] } :=
  ⟨by simp [GameState.init], by norm_num,
   C10_negative_id_always_validates GameState.init (-5) ⟨3, 4⟩
     (by simp [GameState.init]) (by norm_num)⟩

/-- C10 counterexample: with 128 players, even a negative player id does not
make `apply` return success — `ensure_player` panics converting the length
to `i8`, refuting the claim as stated over every `GameState`. -/
theorem C10_counterexample :
    crowded_state.apply (Action.RollDice ⟨-1⟩ ⟨1, 2⟩) = ApplyResult.panic := by
  simp [crowded_state, GameState.init, GameState.apply, GameState.ensure_player]

end Monopoly
